import Mathlib

/-!
Verification development for the sankofa_twin greenhouse digital twin.

The Python sources are shallowly embedded over the real numbers:
floating point arithmetic is modelled by exact real arithmetic, numpy
float arrays by `List ℝ`, and Python exceptions by an `Except` error
channel.  Each embedded definition mirrors one function or method of
the repository, keeping its name where Lean allows it:

- `ThermalMass.update_temperature`  from src/twin/ThermalMass.py
- `Predictive.decide` (decomposed into the named stages it computes)
  from src/twin/Predictive.py
- `GreenhouseConfig_init` / `simulate_step` and the heat-flow helpers
  from src/twin/GreenhouseEngine.py
- `get_rate` / `estimate_energy` from src/twin/energy.py
-/

/-- Python exception kinds that the embedded code can raise.
`typeError` models a call with the wrong number of positional
arguments, `valueError` models numpy reductions over an empty array,
`indexError` models an out-of-range `iloc` row access. -/
inductive PyErr where
  | typeError
  | valueError
  | indexError
  deriving DecidableEq

/-- Python `int(x)` applied to a float: truncation toward zero. -/
noncomputable def pyInt (x : ℝ) : ℤ :=
  if 0 ≤ x then ⌊x⌋ else ⌈x⌉

/-! ## ThermalMass (src/twin/ThermalMass.py) -/

namespace ThermalMass

/-- Module constant HEAT_EXCHANGE_RATE = 50.0 W/K. -/
noncomputable def HEAT_EXCHANGE_RATE : ℝ := 50.0

/-- Embedding of `ThermalMass.update_temperature(self, heat_input_watts, air_temp)`.
The mutable attribute `self.temp_c` is passed in as `temp_c` and the
updated value is returned (state-passing form of the mutation). -/
noncomputable def update_temperature (mass_kg specific_heat temp_c
    heat_input_watts air_temp : ℝ) : ℝ :=
  let temp_diff := air_temp - temp_c
  let step_seconds : ℝ := 3600
  let heat_exchange_joules := HEAT_EXCHANGE_RATE * temp_diff * step_seconds
  let total_heat_input_joules := heat_input_watts * step_seconds + heat_exchange_joules
  let temp_change_C := total_heat_input_joules / (mass_kg * specific_heat)
  temp_c + temp_change_C

/-- Python positional-call semantics for the method
`update_temperature`: the method accepts exactly two arguments besides
`self`; any other argument count raises a TypeError. -/
noncomputable def callUpdateTemperature (mass_kg specific_heat temp_c : ℝ)
    (args : List ℝ) : Except PyErr ℝ :=
  match args with
  | [heat_input_watts, air_temp] =>
      .ok (update_temperature mass_kg specific_heat temp_c heat_input_watts air_temp)
  | _ => .error .typeError

end ThermalMass

/-! ## Predictive controller (src/twin/Predictive.py) -/

/-- Dataclass fields of `Predictive` fixed at construction. -/
structure Predictive where
  C_J_K : ℝ
  U_W_K : ℝ
  heater_W : ℝ
  vent_max_ach : ℝ
  dt_hr : ℝ := 1.0
  T_set : ℝ := 18.0
  deadband : ℝ := 3.0
  safety_margin : ℝ := 0.5

/-- Mutable per-instance controller state: `_heater_state`,
`_on_timer`, `_off_timer`. -/
structure PState where
  heater_state : Bool
  on_timer : ℕ
  off_timer : ℕ
  deriving DecidableEq

namespace Predictive

/-- Class attribute min_on_steps = 3. -/
def minOnSteps : ℕ := 3

/-- Class attribute min_off_steps = 3. -/
def minOffSteps : ℕ := 3

/-- alpha = np.exp(-U_W_K * dt_s / C_J_K) with dt_s = dt_hr * 3600. -/
noncomputable def alphaOf (p : Predictive) : ℝ :=
  Real.exp (-(p.U_W_K * (p.dt_hr * 3600)) / p.C_J_K)

/-- One iteration of the unforced-prediction loop in `decide`:
net_W = Q_sol[k-1] - U*(T[k-1] - T_ext[k-1]) and
T[k] = T_ext[k-1] + (T[k-1] - T_ext[k-1])*alpha + net_W*dt_s/C. -/
noncomputable def predStep (p : Predictive) (prev : ℝ) (tq : ℝ × ℝ) : ℝ :=
  let T_ext := tq.1
  let Q_sol := tq.2
  let net_W := Q_sol - p.U_W_K * (prev - T_ext)
  T_ext + (prev - T_ext) * alphaOf p + net_W * (p.dt_hr * 3600) / p.C_J_K

/-- Fill of the array `T_pred_off`: seed value followed by the fold of
the step function over the driving pairs (models the `for k in
range(1, H)` loop writing `T_pred_off[k]`). -/
noncomputable def rollForward (f : ℝ → ℝ × ℝ → ℝ) (x : ℝ) :
    List (ℝ × ℝ) → List ℝ
  | [] => [x]
  | tq :: rest => x :: rollForward f (f x tq) rest

/-- The whole `T_pred_off` array of `decide`: `T_pred_off[0] = air_temp`
and H-1 applications of `predStep` driven by rows 0..H-2 of the
forecast window. -/
noncomputable def unforcedPred (p : Predictive) (air_temp : ℝ)
    (T_ext Q_sol : List ℝ) : List ℝ :=
  rollForward (predStep p) air_temp ((T_ext.zip Q_sol).take (T_ext.length - 1))

/-- low_band = T_set - deadband/2 - safety_margin. -/
noncomputable def lowBand (p : Predictive) : ℝ :=
  p.T_set - p.deadband / 2 - p.safety_margin

/-- np.argmax over a boolean array: index of the first True, or 0 when
every entry is False. -/
def np_argmax (l : List Bool) : ℕ :=
  let i := l.findIdx (fun b => b)
  if i = l.length then 0 else i

/-- drop_idx = np.argmax(T_pred_off < low_band). -/
noncomputable def dropIdx (p : Predictive) (T_pred : List ℝ) : ℕ :=
  np_argmax (T_pred.map (fun t => if t < lowBand p then true else false))

/-- numpy `.min()` of a nonempty array (callers guard emptiness). -/
noncomputable def listMin : List ℝ → ℝ
  | [] => 0
  | t :: ts => ts.foldl min t

/-- The inner divisor of the warm-up time:
T_set - T_ext.min() + 1e-6 (the epsilon guard of the code). -/
noncomputable def leadDenom (p : Predictive) (minT : ℝ) : ℝ :=
  p.T_set - minT + 1e-6

/-- tau = C_J_K / (U_W_K + heater_W / (T_set - T_ext.min() + 1e-6)). -/
noncomputable def tauOf (p : Predictive) (minT : ℝ) : ℝ :=
  p.C_J_K / (p.U_W_K + p.heater_W / leadDenom p minT)

/-- lead_steps = int(np.ceil(tau / dt_hr)); `np.ceil` lands on an
integer so `int()` is exact. -/
noncomputable def leadSteps (p : Predictive) (T_ext : List ℝ) : ℤ :=
  ⌈tauOf p (listMin T_ext) / p.dt_hr⌉

/-- need_heat = bool(drop_idx != 0). -/
noncomputable def needHeat (p : Predictive) (T_pred : List ℝ) : Bool :=
  dropIdx p T_pred != 0

/-- heater_on (before hysteresis) = need_heat and bool(drop_idx <= lead_steps). -/
noncomputable def heaterDemand (p : Predictive) (T_pred T_ext : List ℝ) : Bool :=
  needHeat p T_pred && decide ((dropIdx p T_pred : ℤ) ≤ leadSteps p T_ext)

/-- The dwell-counter gate: with the heater currently ON the demand is
forced to True while the freshly incremented on-timer is still below
min_on_steps, and symmetrically for OFF. -/
def dwellGate (_p : Predictive) (s : PState) (demand : Bool) : Bool :=
  if s.heater_state = true then
    (if s.on_timer + 1 < minOnSteps then true else demand)
  else
    (if s.off_timer + 1 < minOffSteps then false else demand)

/-- New `_on_timer` after a `decide` call. -/
def nextOnTimer (s : PState) : ℕ :=
  if s.heater_state = true then s.on_timer + 1 else 0

/-- New `_off_timer` after a `decide` call. -/
def nextOffTimer (s : PState) : ℕ :=
  if s.heater_state = true then 0 else s.off_timer + 1

/-- The two hard comfort-band overrides of `decide`, applied in source
order: force OFF when the persisted state is ON and air is above
T_set + deadband/2, then force ON when the persisted state is OFF and
air is below T_set - deadband/2. -/
noncomputable def applyOverrides (p : Predictive) (s : PState) (air_temp : ℝ)
    (h1 : Bool) : Bool :=
  let h2 := if s.heater_state = true ∧ air_temp > p.T_set + p.deadband / 2
    then false else h1
  if s.heater_state = false ∧ air_temp < p.T_set - p.deadband / 2
    then true else h2

/-- need_vent = (T_pred_off > hi_band).any() with
hi_band = T_set + deadband/2 + 5. -/
noncomputable def needVent (p : Predictive) (T_pred : List ℝ) : Bool :=
  T_pred.any (fun t => if p.T_set + p.deadband / 2 + 5 < t then true else false)

/-- Body of `Predictive.decide` once the forecast window is known to be
nonempty: returns ((heater_on, part_load, vent_ach), new controller
state). -/
noncomputable def decideCore (p : Predictive) (s : PState) (air_temp : ℝ)
    (T_ext Q_sol : List ℝ) : (Bool × ℝ × ℝ) × PState :=
  let T_pred := unforcedPred p air_temp T_ext Q_sol
  let heater := applyOverrides p s air_temp (dwellGate p s (heaterDemand p T_pred T_ext))
  ((heater,
    (if heater then (1.0 : ℝ) else 0.0),
    (if needVent p T_pred then p.vent_max_ach else 0.0)),
   ⟨heater, nextOnTimer s, nextOffTimer s⟩)

/-- `Predictive.decide`: on an empty window the numpy reductions
(np.argmax, .min) raise a ValueError; otherwise the decision and the
mutated controller state are produced. -/
noncomputable def decide (p : Predictive) (s : PState) (air_temp : ℝ)
    (T_ext Q_sol : List ℝ) : Except PyErr ((Bool × ℝ × ℝ) × PState) :=
  if T_ext.length = 0 then .error .valueError
  else .ok (decideCore p s air_temp T_ext Q_sol)

/-- The heater_on component of one `decide` call (none on exception). -/
noncomputable def decideHeater (p : Predictive) (s : PState) (air_temp : ℝ)
    (T_ext Q_sol : List ℝ) : Option Bool :=
  match decide p s air_temp T_ext Q_sol with
  | .ok r => some r.1.1
  | .error _ => none

/-- The persisted controller state after one `decide` call. -/
noncomputable def decideNext (p : Predictive) (s : PState) (air_temp : ℝ)
    (T_ext Q_sol : List ℝ) : Option PState :=
  match decide p s air_temp T_ext Q_sol with
  | .ok r => some r.2
  | .error _ => none

/-- Modelled from the spec: the recurrence the specification states for
the unforced prediction, `T[k] = T_ext[k-1] + (T[k-1]-T_ext[k-1])*
exp(-UA*dt/C) + Q_solar[k-1]*dt/C` (no envelope-loss term inside the
Euler contribution), to be compared with `predStep`. -/
noncomputable def specUnforcedStep (p : Predictive) (prev T_ext Q_sol : ℝ) : ℝ :=
  T_ext + (prev - T_ext) * alphaOf p + Q_sol * (p.dt_hr * 3600) / p.C_J_K

end Predictive

/-! ## GreenhouseConfig (src/twin/GreenhouseEngine.py, class GreenhouseConfig) -/

/-- Module constants of GreenhouseEngine.py (SI). -/
noncomputable def CONCRETE_DENSITY_KG_M3 : ℝ := 2400

/-- SOIL_DENSITY_KG_M3 = 1600 kg/m3. -/
noncomputable def SOIL_DENSITY_KG_M3 : ℝ := 1600

/-- SOIL_COUPLING_FACTOR = 0.30. -/
noncomputable def SOIL_COUPLING_FACTOR : ℝ := 0.30

/-- BAMBOO_MASS_KG = 200. -/
noncomputable def BAMBOO_MASS_KG : ℝ := 200

/-- SPECIFIC_HEAT_J_PER_KG = 920. -/
noncomputable def SPECIFIC_HEAT_J_PER_KG : ℝ := 920

/-- ARCH_FACTOR = 1.15. -/
noncomputable def ARCH_FACTOR : ℝ := 1.15

/-- GLAZING_U_VALUE = 3.2 W/m2/K. -/
noncomputable def GLAZING_U_VALUE : ℝ := 3.2

/-- R_IP_TO_SI = 5.678263. -/
noncomputable def R_IP_TO_SI : ℝ := 5.678263

/-- AIR_DENSITY = 1.225 kg/m3. -/
noncomputable def AIR_DENSITY : ℝ := 1.225

/-- The attributes a `GreenhouseConfig` instance carries after
`__init__` (the subset the embedded code reads). -/
structure GHConfig where
  latitude : ℝ
  longitude : ℝ
  length : ℝ
  width : ℝ
  height : ℝ
  sidewall : ℝ
  wall_A : ℝ
  roof_A : ℝ
  floor_A : ℝ
  glazing_A : ℝ
  volume_m3 : ℝ
  rho_cp_V : ℝ
  wall_R : ℝ
  roof_R : ℝ
  floor_R : ℝ
  glazing_R : ℝ
  leak_ach : ℝ
  design_vent_ach : ℝ
  mass_kg : ℝ
  mass_c_p : ℝ
  ua_envelope : ℝ
  design_dT : ℝ
  heater_W : ℤ
  controller : Predictive

/-- Embedding of `GreenhouseConfig.__init__(latitude, longitude,
num_footings=8, design_temp_diff_C=25)` together with its helpers
`_build_thermal_mass_KG`, `_build_heater_sizing_W` and
`_build_controller`.  The body performs no input validation and
contains no raise statement, so it is a total function. -/
noncomputable def GreenhouseConfig_init (latitude longitude : ℝ)
    (num_footings : ℤ) (design_temp_diff_C : ℝ) : GHConfig :=
  let length : ℝ := 37.6666 * 0.3048
  let width : ℝ := 18.95 * 0.3048
  let height : ℝ := 12 * 0.3048
  let sidewall : ℝ := 8 * 0.3048
  let wall_A := 2 * (length + width) * sidewall
  let roof_A := length * width * ARCH_FACTOR
  let floor_A := length * width
  let glazing_A := wall_A + roof_A
  let roof_peak_height := height - sidewall
  let volume_m3 := length * width * (roof_peak_height / 2 + sidewall)
  let rho_cp_V := AIR_DENSITY * volume_m3 * 1005
  let wall_R := 3 / R_IP_TO_SI
  let roof_R := 1.8 / R_IP_TO_SI
  let floor_R := 8.0 / R_IP_TO_SI
  let glazing_R := 1 / GLAZING_U_VALUE
  let leak_ach : ℝ := 0.30
  let design_vent_ach : ℝ := 2.0
  -- _build_thermal_mass_KG(num_footings)
  let concrete_V := (num_footings : ℝ) * (12 * 0.0283168)
  let concrete_m := concrete_V * CONCRETE_DENSITY_KG_M3
  let soil_V := floor_A * 0.61
  let soil_m := soil_V * SOIL_DENSITY_KG_M3 * SOIL_COUPLING_FACTOR
  let mass_kg := concrete_m + soil_m + BAMBOO_MASS_KG
  let mass_c_p := SPECIFIC_HEAT_J_PER_KG
  let ua_envelope := wall_A / wall_R + roof_A / roof_R + floor_A / floor_R
  let design_dT := design_temp_diff_C
  -- _build_heater_sizing_W()
  let Q_cond := ua_envelope * design_dT
  let mass_flow := (volume_m3 * design_vent_ach / 3600) * AIR_DENSITY
  let Q_vent := mass_flow * 1005 * design_dT
  let heater_W := pyInt ((Q_cond + Q_vent) * 1.60)
  -- _build_controller()
  let leak_U := AIR_DENSITY * volume_m3 * leak_ach / 3600 * 1005
  let h_ma : ℝ := 1500
  let sim_C_J_K := mass_kg * mass_c_p + AIR_DENSITY * volume_m3 * 1005
  let sim_U_W_K := ua_envelope + leak_U + h_ma
  { latitude := latitude, longitude := longitude,
    length := length, width := width, height := height, sidewall := sidewall,
    wall_A := wall_A, roof_A := roof_A, floor_A := floor_A, glazing_A := glazing_A,
    volume_m3 := volume_m3, rho_cp_V := rho_cp_V,
    wall_R := wall_R, roof_R := roof_R, floor_R := floor_R, glazing_R := glazing_R,
    leak_ach := leak_ach, design_vent_ach := design_vent_ach,
    mass_kg := mass_kg, mass_c_p := mass_c_p,
    ua_envelope := ua_envelope, design_dT := design_dT, heater_W := heater_W,
    controller :=
      { C_J_K := sim_C_J_K, U_W_K := sim_U_W_K, heater_W := (heater_W : ℝ),
        vent_max_ach := design_vent_ach, dt_hr := 1.0 } }

/-- The error type named by the specification for rejected construction
inputs.  No such exception class exists in the repository. -/
inductive ConfigurationError where
  | mk

/-- Construction of a `GreenhouseConfig` viewed through a failure
channel: the `__init__` body contains no validation and no raise, so
every input produces an object. -/
noncomputable def GreenhouseConfig_construct (latitude longitude : ℝ)
    (num_footings : ℤ) (design_temp_diff_C : ℝ) :
    Except ConfigurationError GHConfig :=
  .ok (GreenhouseConfig_init latitude longitude num_footings design_temp_diff_C)

/-! ## GreenhouseThermalEngine (src/twin/GreenhouseEngine.py) -/

/-- One forecast row as consumed by `simulate_step` (columns temp,
wind_speed, Q_solar). -/
structure Row where
  temp : ℝ
  wind_speed : ℝ
  Q_solar : ℝ

/-- The per-surface conduction coefficient summed inside
`calculate_heat_loss_W` (the parenthesised factor of Q_cond). -/
noncomputable def condCoeff (cfg : GHConfig) : ℝ :=
  cfg.wall_A / cfg.wall_R + cfg.roof_A / cfg.roof_R +
    cfg.floor_A / cfg.floor_R + cfg.glazing_A / cfg.glazing_R

/-- Embedding of `GreenhouseThermalEngine.calculate_heat_loss_W`. -/
noncomputable def calculate_heat_loss_W (cfg : GHConfig)
    (air_temp ext_temp wind_m_s : ℝ) : ℝ :=
  let dT := air_temp - ext_temp
  let Q_cond := condCoeff cfg * dT
  let m_dot := cfg.volume_m3 * cfg.leak_ach / 3600 * 1.2
  let Q_inf := m_dot * 1005 * dT
  let WIND_COEFF : ℝ := 0.05
  (Q_cond + Q_inf) * (1 + WIND_COEFF * wind_m_s)

/-- Embedding of `GreenhouseThermalEngine.calculate_venting_loss_W`. -/
noncomputable def calculate_venting_loss_W (cfg : GHConfig)
    (air_temp ext_temp vent_ach : ℝ) : ℝ :=
  let dT := air_temp - ext_temp
  if vent_ach = 0 ∨ dT < 0 then 0.0
  else
    let CP_AIR : ℝ := 1005
    let volumetric_flow := cfg.volume_m3 * (vent_ach / 3600)
    let mass_flow := AIR_DENSITY * volumetric_flow
    mass_flow * CP_AIR * (air_temp - ext_temp)

/-- Embedding of `GreenhouseThermalEngine.calculate_heating_gain_W`. -/
noncomputable def calculate_heating_gain_W (cfg : GHConfig)
    (heater_on : Bool) (part : ℝ) : ℝ :=
  if heater_on = false then 0.0
  else
    let EFFICIENCY : ℝ := 0.90
    let clamped := max 0.0 (min 1.0 part)
    clamped * (cfg.heater_W : ℝ) * EFFICIENCY

/-- One output record of `simulate_step` (the datetime index is the
position of the row in the result list). -/
structure SimRecord where
  T_air : ℝ
  T_mass : ℝ
  heater_on : Bool
  part_load : ℝ
  vent_ach : ℝ
  Q_solar : ℝ
  Q_heat : ℝ
  Q_loss : ℝ
  Q_vent : ℝ
  Q_exchange : ℝ

/-- One 15-minute physics sub-step of `simulate_step`.  `node_temp` is
the `temp_c` attribute of the engine-owned `ThermalMass` instance; the
mass temperature the loop threads explicitly is `mass_temp`.  The
sub-step invokes `self.mass.update_temperature(q_to_mass, air_temp,
mass_temp)` with three positional arguments. -/
noncomputable def physSubstep (cfg : GHConfig) (node_temp ext_temp wind_speed
    vent_ach Q_solar_sub Q_heat_sub air_temp mass_temp : ℝ) :
    Except PyErr (ℝ × ℝ) :=
  let Q_loss := calculate_heat_loss_W cfg air_temp ext_temp wind_speed / 4.0
  let Q_vent := calculate_venting_loss_W cfg air_temp ext_temp vent_ach / 4.0
  let mass_fac : ℝ := 0.8
  let q_to_mass := mass_fac * Q_solar_sub
  let q_to_air := (1 - mass_fac) * Q_solar_sub
  match ThermalMass.callUpdateTemperature cfg.mass_kg cfg.mass_c_p node_temp
      [q_to_mass, air_temp, mass_temp] with
  | .error e => .error e
  | .ok mass_temp' =>
    let h_ma : ℝ := 1500
    let q_exchange := h_ma * (mass_temp' - air_temp)
    let q_net_air := q_to_air + Q_heat_sub + q_exchange - Q_loss - Q_vent
    let SUB_DT_S : ℝ := 0.25 * 3600
    .ok (air_temp + q_net_air * SUB_DT_S / (cfg.rho_cp_V + cfg.mass_kg * cfg.mass_c_p),
         mass_temp')

/-- The `for _ in range(4)` sub-step loop, threading (air, mass). -/
noncomputable def runSubsteps (cfg : GHConfig) (node_temp ext_temp wind_speed
    vent_ach Q_solar_sub Q_heat_sub : ℝ) :
    ℕ → ℝ → ℝ → Except PyErr (ℝ × ℝ)
  | 0, air_temp, mass_temp => .ok (air_temp, mass_temp)
  | n + 1, air_temp, mass_temp =>
    match physSubstep cfg node_temp ext_temp wind_speed vent_ach
        Q_solar_sub Q_heat_sub air_temp mass_temp with
    | .error e => .error e
    | .ok am => runSubsteps cfg node_temp ext_temp wind_speed vent_ach
        Q_solar_sub Q_heat_sub n am.1 am.2

/-- The hourly loop of `simulate_step`: `steps` remaining iterations,
current row index `k`.  Each hour slices the lookahead window
`forecast.iloc[k : k+horizon]` (Python slicing truncates at the end of
the frame), calls the controller, reads row `k` (IndexError when
absent), runs the four physics sub-steps and appends a record. -/
noncomputable def simLoop (cfg : GHConfig) (node_temp : ℝ) (forecast : List Row)
    (horizon : ℕ) :
    ℕ → ℕ → ℝ → ℝ → PState → List SimRecord → Except PyErr (List SimRecord)
  | 0, _k, _air, _mass, _st, acc => .ok acc.reverse
  | steps + 1, k, air_temp, mass_temp, st, acc =>
    let horizon_rows := (forecast.drop k).take horizon
    match Predictive.decide cfg.controller st air_temp
        (horizon_rows.map Row.temp) (horizon_rows.map Row.Q_solar) with
    | .error e => .error e
    | .ok r =>
      let heater_on := r.1.1
      let part_load := r.1.2.1
      let vent_ach := r.1.2.2
      let st' := r.2
      match forecast.get? k with
      | none => .error .indexError
      | some row =>
        let Q_solar_hr := row.Q_solar
        let Q_heat_hr := calculate_heating_gain_W cfg heater_on part_load
        match runSubsteps cfg node_temp row.temp row.wind_speed vent_ach
            (Q_solar_hr / 4.0) (Q_heat_hr / 4.0) 4 air_temp mass_temp with
        | .error e => .error e
        | .ok am =>
          let entry : SimRecord :=
            { T_air := am.1, T_mass := am.2, heater_on := heater_on,
              part_load := part_load, vent_ach := vent_ach,
              Q_solar := Q_solar_hr, Q_heat := Q_heat_hr,
              Q_loss := calculate_heat_loss_W cfg am.1 row.temp row.wind_speed,
              Q_vent := calculate_venting_loss_W cfg am.1 row.temp vent_ach,
              Q_exchange := 1500 * (am.2 - am.1) }
          simLoop cfg node_temp forecast horizon steps (k + 1) am.1 am.2 st' (entry :: acc)

/-- Embedding of `GreenhouseThermalEngine.simulate_step`.  `node_temp`
is the initial `temp_c` of the engine-owned ThermalMass (20.0 for a
fresh engine) and `st` the persisted controller state (all-zero and
OFF for a fresh config). -/
noncomputable def simulate_step (cfg : GHConfig)
    (initial_air_temp initial_mass_temp node_temp : ℝ) (st : PState)
    (forecast : List Row) (start_i steps horizon : ℕ) :
    Except PyErr (List SimRecord) :=
  simLoop cfg node_temp forecast horizon steps start_i
    initial_air_temp initial_mass_temp st []

/-! ## Energy accounting (src/twin/energy.py) -/

/-- Timestamp view used by `get_rate`: `dt.weekday()` (0 = Monday) and
`dt.hour`. -/
structure PyDatetime where
  weekday : ℕ
  hour : ℕ

/-- TOU_RATES table. -/
def TOU_RATES_peak : ℚ := 0.3065

/-- Off-peak rate. -/
def TOU_RATES_off_peak : ℚ := 0.1243

/-- Super-off-peak rate. -/
def TOU_RATES_super_off_peak : ℚ := 0.0787

/-- Embedding of `get_rate(dt)`. -/
def get_rate (dt : PyDatetime) : String × ℚ :=
  if dt.weekday < 5 ∧ 15 ≤ dt.hour ∧ dt.hour ≤ 21 then
    ("peak", TOU_RATES_peak)
  else if 23 ≤ dt.hour ∨ dt.hour ≤ 6 then
    ("super off peak", TOU_RATES_super_off_peak)
  else
    ("off_peak", TOU_RATES_off_peak)

/-- One row of the frame handed to `estimate_energy` (columns datetime,
heating, venting). -/
structure EnergyRow where
  datetime : PyDatetime
  heating : ℚ
  venting : ℚ

/-- The loop body of `estimate_energy` for one row: kWh and cost. -/
def rowEnergy (heat_kwh_hourly vent_kwh_hourly : ℚ) (row : EnergyRow) : ℚ × ℚ :=
  let rate := (get_rate row.datetime).2
  let kwh := row.heating * heat_kwh_hourly + row.venting * vent_kwh_hourly
  (kwh, kwh * rate)

/-- Embedding of `estimate_energy`: per-row energy/cost pairs plus the
accumulated totals (total_kwh, total_cost). -/
def estimate_energy (sim_rows : List EnergyRow)
    (heat_kwh_hourly vent_kwh_hourly : ℚ) : List (ℚ × ℚ) × ℚ × ℚ :=
  let energy := sim_rows.map (rowEnergy heat_kwh_hourly vent_kwh_hourly)
  (energy, (energy.map Prod.fst).sum, (energy.map Prod.snd).sum)

/-! ## Shared fixtures and helper lemmas -/

/-- A concrete controller used by witnesses and counterexamples:
C = 3600 J/K, UA = 1 W/K, heater 1 W, vents 2 ACH, defaults
dt_hr = 1, T_set = 18, deadband = 3, safety_margin = 0.5. -/
noncomputable def pCtl : Predictive :=
  { C_J_K := 3600, U_W_K := 1, heater_W := 1, vent_max_ach := 2 }

theorem pCtl_C : pCtl.C_J_K = 3600 := rfl

theorem pCtl_U : pCtl.U_W_K = 1 := rfl

theorem pCtl_W : pCtl.heater_W = 1 := rfl

theorem pCtl_dt : pCtl.dt_hr = 1 := by norm_num [pCtl]

theorem pCtl_Tset : pCtl.T_set = 18 := by norm_num [pCtl]

theorem pCtl_deadband : pCtl.deadband = 3 := by norm_num [pCtl]

theorem pCtl_margin : pCtl.safety_margin = 0.5 := rfl

/-- The Pittsburgh example configuration built by
`create_example_config` (num_footings = 8; the module default
design_temp_diff_C = 25). -/
noncomputable def cfgPittsburgh : GHConfig :=
  GreenhouseConfig_init 40.4406 (-79.9959) 8 25

/-! ## C10 -/

/-- C10: `ThermalMass.update_temperature` implements the recurrence
mass_temp + (k_exchange * (air_temp - mass_temp) + heat_input) * dt /
(mass_kg * specific_heat) with k_exchange = 50 W/K and dt = 3600 s, and
with zero heat input and air_temp equal to the mass temperature it
returns the mass temperature unchanged. -/
theorem c10_update_temperature_recurrence :
    ∀ mass_kg specific_heat temp_c heat_input_watts air_temp : ℝ,
      ThermalMass.update_temperature mass_kg specific_heat temp_c
          heat_input_watts air_temp
        = temp_c + (ThermalMass.HEAT_EXCHANGE_RATE * (air_temp - temp_c)
            + heat_input_watts) * 3600 / (mass_kg * specific_heat)
      ∧ ThermalMass.update_temperature mass_kg specific_heat temp_c 0 temp_c
        = temp_c := by
  intro m c t h a
  constructor
  · unfold ThermalMass.update_temperature
    ring
  · unfold ThermalMass.update_temperature ThermalMass.HEAT_EXCHANGE_RATE
    simp

/-! ## C8 -/

/-- C8: `get_rate` classifies a timestamp as peak iff it is a weekday
hour between 15 and 21 inclusive and as super-off-peak iff the hour is
at least 23 or at most 6 (off-peak otherwise); `estimate_energy`
computes per row kWh = heating * heat_kwh_hourly + venting *
vent_kwh_hourly and cost = kWh * rate; and a heating-only weekday
17:00 row yields exactly (heat_kwh_hourly, heat_kwh_hourly * 0.3065). -/
theorem c8_energy_accounting :
    (∀ dt : PyDatetime, (get_rate dt).1 = "peak"
        ↔ dt.weekday < 5 ∧ 15 ≤ dt.hour ∧ dt.hour ≤ 21)
    ∧ (∀ dt : PyDatetime, (get_rate dt).1 = "super off peak"
        ↔ 23 ≤ dt.hour ∨ dt.hour ≤ 6)
    ∧ (∀ (rows : List EnergyRow) (hk vk : ℚ),
        (estimate_energy rows hk vk).1 = rows.map (rowEnergy hk vk)
        ∧ ∀ row ∈ rows, rowEnergy hk vk row
            = (row.heating * hk + row.venting * vk,
               (row.heating * hk + row.venting * vk) * (get_rate row.datetime).2))
    ∧ (∀ hk vk : ℚ, rowEnergy hk vk ⟨⟨2, 17⟩, 1, 0⟩ = (hk, hk * 0.3065)) := by
  refine ⟨?_, ?_, ?_, ?_⟩
  · intro dt
    unfold get_rate
    split_ifs with h1 h2 <;> simp_all
  · intro dt
    unfold get_rate
    split_ifs with h1 h2 <;> simp_all
    omega
  · intro rows hk vk
    exact ⟨rfl, fun row _ => rfl⟩
  · intro hk vk
    unfold rowEnergy get_rate TOU_RATES_peak
    norm_num

/-! ## C6 -/

/-- C6 counterexample: constructing a `GreenhouseConfig` with the
non-physical footing count 0 does not fail with ConfigurationError; it
returns a configuration object. -/
theorem c6_counterexample :
    GreenhouseConfig_construct 40.4406 (-79.9959) 0 25
      = .ok (GreenhouseConfig_init 40.4406 (-79.9959) 0 25) := rfl

/-- C6 amended: `GreenhouseConfig.__init__` performs no input
validation, so construction succeeds for every input (the geometric
dimensions are hard-coded constants, not inputs, and no
ConfigurationError class exists); for every nonnegative footing count
the resulting thermal mass is still strictly positive. -/
theorem c6_no_validation (lat lon : ℝ) (n : ℤ) (dT : ℝ) :
    GreenhouseConfig_construct lat lon n dT
        = .ok (GreenhouseConfig_init lat lon n dT)
    ∧ ((0 : ℤ) ≤ n → 0 < (GreenhouseConfig_init lat lon n dT).mass_kg) := by
  refine ⟨rfl, fun hn => ?_⟩
  have hn' : (0 : ℝ) ≤ (n : ℝ) := by exact_mod_cast hn
  simp only [GreenhouseConfig_init, SOIL_DENSITY_KG_M3, SOIL_COUPLING_FACTOR,
    BAMBOO_MASS_KG, CONCRETE_DENSITY_KG_M3]
  nlinarith [hn']

/-- C6 witness: the amended statement at the example construction call
(footings = 8, design ΔT = 25). -/
theorem c6_witness :
    GreenhouseConfig_construct 40.4406 (-79.9959) 8 25
        = .ok (GreenhouseConfig_init 40.4406 (-79.9959) 8 25)
    ∧ 0 < (GreenhouseConfig_init 40.4406 (-79.9959) 8 25).mass_kg :=
  ⟨(c6_no_validation 40.4406 (-79.9959) 8 25).1,
   (c6_no_validation 40.4406 (-79.9959) 8 25).2 (by norm_num)⟩

/-! ## C7 -/

/-- C7 counterexample: for a forecast whose minimum temperature is
exactly T_set + 1e-6 the guarded divisor of the warm-up computation is
exactly zero, so the epsilon does not rule out division by zero for
every forecast (numpy produces inf rather than raising there). -/
theorem c7_counterexample :
    Predictive.leadDenom pCtl (Predictive.listMin [18 + 1e-6]) = 0 := by
  unfold Predictive.leadDenom Predictive.listMin
  rw [pCtl_Tset]
  norm_num

/-- C7 amended: the epsilon guard makes the warm-up divisor strictly
positive whenever the minimum forecast temperature does not exceed the
set-point, and then the outer divisor UA + heater_W / denom is strictly
positive as well, so no division by zero occurs for such forecasts. -/
theorem c7_guarded_divisor (p : Predictive) (T_ext : List ℝ)
    (hmin : Predictive.listMin T_ext ≤ p.T_set)
    (hU : 0 < p.U_W_K) (hW : 0 ≤ p.heater_W) :
    0 < Predictive.leadDenom p (Predictive.listMin T_ext)
    ∧ 0 < p.U_W_K + p.heater_W / Predictive.leadDenom p (Predictive.listMin T_ext) := by
  have h1 : 0 < Predictive.leadDenom p (Predictive.listMin T_ext) := by
    unfold Predictive.leadDenom
    have : (0 : ℝ) < 1e-6 := by norm_num
    linarith
  exact ⟨h1, add_pos_of_pos_of_nonneg hU (div_nonneg hW h1.le)⟩

/-- C7 witness: the amended statement at the fixture controller and a
freezing one-row forecast. -/
theorem c7_witness :
    0 < Predictive.leadDenom pCtl (Predictive.listMin [0])
    ∧ 0 < pCtl.U_W_K
        + pCtl.heater_W / Predictive.leadDenom pCtl (Predictive.listMin [0]) :=
  c7_guarded_divisor pCtl [0]
    (by unfold Predictive.listMin; rw [pCtl_Tset]; norm_num)
    (by rw [pCtl_U]; norm_num) (by rw [pCtl_W]; norm_num)

/-! ## C9 -/

/-- C9 counterexample: at the example configuration the stored
aggregate `ua_envelope` differs from the wall/roof/floor sum plus the
glazing contribution glazing_A * U_glazing, because the constructor
omits the glazing term. -/
theorem c9_counterexample :
    cfgPittsburgh.ua_envelope
      ≠ cfgPittsburgh.wall_A / cfgPittsburgh.wall_R
        + cfgPittsburgh.roof_A / cfgPittsburgh.roof_R
        + cfgPittsburgh.floor_A / cfgPittsburgh.floor_R
        + cfgPittsburgh.glazing_A * GLAZING_U_VALUE := by
  unfold cfgPittsburgh GreenhouseConfig_init
  simp only [ARCH_FACTOR, R_IP_TO_SI, GLAZING_U_VALUE]
  norm_num

/-- C9 amended: the stored aggregate envelope conductance is the sum
over wall, roof and floor only of area / R; the glazing enters with
R = 1/U (so area / R = area * U) in the conduction coefficient of
`calculate_heat_loss_W`, not in `ua_envelope`. -/
theorem c9_ua_envelope (lat lon : ℝ) (n : ℤ) (dT : ℝ) :
    (GreenhouseConfig_init lat lon n dT).ua_envelope
        = (GreenhouseConfig_init lat lon n dT).wall_A
            / (GreenhouseConfig_init lat lon n dT).wall_R
          + (GreenhouseConfig_init lat lon n dT).roof_A
            / (GreenhouseConfig_init lat lon n dT).roof_R
          + (GreenhouseConfig_init lat lon n dT).floor_A
            / (GreenhouseConfig_init lat lon n dT).floor_R
    ∧ condCoeff (GreenhouseConfig_init lat lon n dT)
        = (GreenhouseConfig_init lat lon n dT).ua_envelope
          + (GreenhouseConfig_init lat lon n dT).glazing_A * GLAZING_U_VALUE := by
  constructor
  · rfl
  · unfold condCoeff GreenhouseConfig_init
    simp only [ARCH_FACTOR, R_IP_TO_SI, GLAZING_U_VALUE]
    norm_num

/-! ## Controller lemmas shared by C3 and C4 -/

theorem decide_cons (p : Predictive) (s : PState) (air : ℝ) (t : ℝ)
    (T Q : List ℝ) :
    Predictive.decide p s air (t :: T) Q
      = .ok (Predictive.decideCore p s air (t :: T) Q) := by
  unfold Predictive.decide
  simp

theorem decideHeater_cons (p : Predictive) (s : PState) (air : ℝ) (t : ℝ)
    (T Q : List ℝ) :
    Predictive.decideHeater p s air (t :: T) Q
      = some (Predictive.applyOverrides p s air
          (Predictive.dwellGate p s (Predictive.heaterDemand p
            (Predictive.unforcedPred p air (t :: T) Q) (t :: T)))) := by
  unfold Predictive.decideHeater
  rw [decide_cons]
  rfl

theorem decideNext_cons (p : Predictive) (s : PState) (air : ℝ) (t : ℝ)
    (T Q : List ℝ) :
    Predictive.decideNext p s air (t :: T) Q
      = some ⟨Predictive.applyOverrides p s air
          (Predictive.dwellGate p s (Predictive.heaterDemand p
            (Predictive.unforcedPred p air (t :: T) Q) (t :: T))),
          Predictive.nextOnTimer s, Predictive.nextOffTimer s⟩ := by
  unfold Predictive.decideNext
  rw [decide_cons]
  rfl

theorem applyOverrides_on_of_not_hot (p : Predictive) (s : PState) (air : ℝ)
    (hs : s.heater_state = true) (hair : air ≤ p.T_set + p.deadband / 2) :
    Predictive.applyOverrides p s air true = true := by
  unfold Predictive.applyOverrides
  have hc1 : ¬(s.heater_state = true ∧ air > p.T_set + p.deadband / 2) := by
    intro h
    exact absurd h.2 (not_lt.mpr hair)
  have hc2 : ¬(s.heater_state = false ∧ air < p.T_set - p.deadband / 2) := by
    simp [hs]
  rw [if_neg hc1, if_neg hc2]

theorem applyOverrides_off_of_not_cold (p : Predictive) (s : PState) (air : ℝ)
    (hs : s.heater_state = false) (hair : p.T_set - p.deadband / 2 ≤ air) :
    Predictive.applyOverrides p s air false = false := by
  unfold Predictive.applyOverrides
  have hc1 : ¬(s.heater_state = true ∧ air > p.T_set + p.deadband / 2) := by
    simp [hs]
  have hc2 : ¬(s.heater_state = false ∧ air < p.T_set - p.deadband / 2) := by
    intro h
    exact absurd h.2 (not_lt.mpr hair)
  rw [if_neg hc2, if_neg hc1]

/-! ## C3 -/

/-- C3 counterexample: a single `decide` call can return heater_on =
true while the air temperature is strictly above set-point +
deadband/2.  With the persisted state OFF (so the force-OFF override
does not apply), an expired off-dwell counter, a warm current reading
of 25 °C and a freezing two-hour forecast, the predictive demand wins
and the heater is commanded ON. -/
theorem c3_counterexample :
    Predictive.decideHeater pCtl ⟨false, 0, 5⟩ 25 [0, 0] [0, 0] = some true
    ∧ pCtl.T_set + pCtl.deadband / 2 < 25 := by
  have hαpos : 0 < Predictive.alphaOf pCtl := Real.exp_pos _
  have hα1 : Predictive.alphaOf pCtl < 1 := by
    unfold Predictive.alphaOf
    rw [pCtl_U, pCtl_dt, pCtl_C, Real.exp_lt_one_iff]
    norm_num
  have hpred : Predictive.unforcedPred pCtl 25 [0, 0] [0, 0]
      = [25, Predictive.predStep pCtl 25 (0, 0)] := rfl
  have hval : Predictive.predStep pCtl 25 (0, 0)
      = 25 * Predictive.alphaOf pCtl - 25 := by
    unfold Predictive.predStep
    rw [pCtl_U, pCtl_dt, pCtl_C]
    ring
  have hlow : Predictive.lowBand pCtl = 16 := by
    unfold Predictive.lowBand
    rw [pCtl_Tset, pCtl_deadband, pCtl_margin]
    norm_num
  have hdrop : Predictive.dropIdx pCtl (Predictive.unforcedPred pCtl 25 [0, 0] [0, 0]) = 1 := by
    rw [hpred, hval]
    unfold Predictive.dropIdx Predictive.np_argmax
    rw [hlow]
    have h1 : ¬((25 : ℝ) < 16) := by norm_num
    have h2 : 25 * Predictive.alphaOf pCtl - 25 < 16 := by nlinarith
    simp [h1, h2, List.findIdx, List.findIdx.go]
  have hminT : Predictive.listMin [(0 : ℝ), 0] = 0 := by
    unfold Predictive.listMin
    simp
  have hlead : (1 : ℤ) ≤ Predictive.leadSteps pCtl [0, 0] := by
    unfold Predictive.leadSteps Predictive.tauOf Predictive.leadDenom
    rw [hminT, pCtl_C, pCtl_U, pCtl_W, pCtl_Tset, pCtl_dt]
    have hpos : (0 : ℝ) < 3600 / (1 + 1 / (18 - 0 + 1e-6)) / 1 := by
      norm_num
    have := Int.ceil_pos.mpr hpos
    omega
  have hdemand : Predictive.heaterDemand pCtl
      (Predictive.unforcedPred pCtl 25 [0, 0] [0, 0]) [0, 0] = true := by
    unfold Predictive.heaterDemand Predictive.needHeat
    rw [hdrop]
    simp only [Nat.cast_one]
    simp [hlead]
  refine ⟨?_, by rw [pCtl_Tset, pCtl_deadband]; norm_num⟩
  rw [decideHeater_cons, hdemand]
  have hgate : Predictive.dwellGate pCtl ⟨false, 0, 5⟩ true = true := by
    unfold Predictive.dwellGate Predictive.minOffSteps
    norm_num
  rw [hgate]
  unfold Predictive.applyOverrides
  have hc1 : ¬((⟨false, 0, 5⟩ : PState).heater_state = true
      ∧ (25 : ℝ) > pCtl.T_set + pCtl.deadband / 2) := by
    simp
  have hc2 : ¬((⟨false, 0, 5⟩ : PState).heater_state = false
      ∧ (25 : ℝ) < pCtl.T_set - pCtl.deadband / 2) := by
    rw [pCtl_Tset, pCtl_deadband]
    norm_num
  rw [if_neg hc2, if_neg hc1]

/-- C3 amended: the hard comfort-band overrides are conditioned on the
persisted heater state.  When the persisted state is ON and air is
strictly above set-point + deadband/2, `decide` returns heater_on =
false; when the persisted state is OFF and air is strictly below
set-point - deadband/2, it returns heater_on = true.  (Without the
matching persisted state the overrides do not fire, as the
counterexample shows.) -/
theorem c3_overrides (p : Predictive) (s : PState) (air : ℝ) (T Q : List ℝ)
    (hT : T ≠ []) :
    (s.heater_state = true → p.T_set + p.deadband / 2 < air →
        Predictive.decideHeater p s air T Q = some false)
    ∧ (s.heater_state = false → air < p.T_set - p.deadband / 2 →
        Predictive.decideHeater p s air T Q = some true) := by
  obtain ⟨t, T', rfl⟩ := List.exists_cons_of_ne_nil hT
  constructor
  · intro hs hair
    rw [decideHeater_cons]
    unfold Predictive.applyOverrides
    have hc1 : s.heater_state = true ∧ air > p.T_set + p.deadband / 2 := ⟨hs, hair⟩
    have hc2 : ¬(s.heater_state = false ∧ air < p.T_set - p.deadband / 2) := by
      simp [hs]
    rw [if_neg hc2, if_pos hc1]
  · intro hs hair
    rw [decideHeater_cons]
    unfold Predictive.applyOverrides
    have hc2 : s.heater_state = false ∧ air < p.T_set - p.deadband / 2 := ⟨hs, hair⟩
    rw [if_pos hc2]

/-- C3 witness: the amended statement at a concrete instance — with
the persisted state ON and a 30 °C reading the call returns heater_on
= false. -/
theorem c3_witness :
    Predictive.decideHeater pCtl ⟨true, 0, 0⟩ 30 [0] [0] = some false :=
  (c3_overrides pCtl ⟨true, 0, 0⟩ 30 [0] [0] (by simp)).1 rfl
    (by rw [pCtl_Tset, pCtl_deadband]; norm_num)

/-! ## C4 -/

/-- C4: the dwell-time hysteresis of `decide`.  Turning the heater on
from OFF resets the on-dwell counter to zero (and symmetrically for
turning it off); while the freshly incremented counter is still below
min_on_steps = 3 the heater is held ON (absent the hard force-OFF
override), and below min_off_steps = 3 it is held OFF (absent the hard
force-ON override).  Hence after an on (resp. off) transition the
command cannot revert for at least 3 decide() calls. -/
theorem c4_dwell_time (p : Predictive) (s : PState) (air : ℝ) (T Q : List ℝ)
    (hT : T ≠ []) :
    (s.heater_state = false → Predictive.decideHeater p s air T Q = some true →
        Predictive.decideNext p s air T Q = some ⟨true, 0, s.off_timer + 1⟩)
    ∧ (s.heater_state = true → s.on_timer + 1 < Predictive.minOnSteps →
        air ≤ p.T_set + p.deadband / 2 →
        Predictive.decideHeater p s air T Q = some true
        ∧ Predictive.decideNext p s air T Q = some ⟨true, s.on_timer + 1, 0⟩)
    ∧ (s.heater_state = true → Predictive.decideHeater p s air T Q = some false →
        Predictive.decideNext p s air T Q = some ⟨false, s.on_timer + 1, 0⟩)
    ∧ (s.heater_state = false → s.off_timer + 1 < Predictive.minOffSteps →
        p.T_set - p.deadband / 2 ≤ air →
        Predictive.decideHeater p s air T Q = some false
        ∧ Predictive.decideNext p s air T Q = some ⟨false, 0, s.off_timer + 1⟩) := by
  obtain ⟨t, T', rfl⟩ := List.exists_cons_of_ne_nil hT
  refine ⟨?_, ?_, ?_, ?_⟩
  · intro hs hres
    rw [decideHeater_cons] at hres
    have h := Option.some.inj hres
    rw [decideNext_cons]
    unfold Predictive.nextOnTimer Predictive.nextOffTimer
    rw [h, hs]
    simp
  · intro hs htimer hair
    have hgate : Predictive.dwellGate p s (Predictive.heaterDemand p
        (Predictive.unforcedPred p air (t :: T') Q) (t :: T')) = true := by
      unfold Predictive.dwellGate
      rw [hs, if_pos rfl, if_pos htimer]
    have hover := applyOverrides_on_of_not_hot p s air hs hair
    refine ⟨?_, ?_⟩
    · rw [decideHeater_cons, hgate, hover]
    · rw [decideNext_cons, hgate, hover]
      unfold Predictive.nextOnTimer Predictive.nextOffTimer
      rw [hs]
      simp
  · intro hs hres
    rw [decideHeater_cons] at hres
    have h := Option.some.inj hres
    rw [decideNext_cons]
    unfold Predictive.nextOnTimer Predictive.nextOffTimer
    rw [h, hs]
    simp
  · intro hs htimer hair
    have hgate : Predictive.dwellGate p s (Predictive.heaterDemand p
        (Predictive.unforcedPred p air (t :: T') Q) (t :: T')) = false := by
      unfold Predictive.dwellGate
      rw [hs]
      simp only [Bool.false_eq_true, if_false]
      rw [if_pos htimer]
    have hover := applyOverrides_off_of_not_cold p s air hs hair
    refine ⟨?_, ?_⟩
    · rw [decideHeater_cons, hgate, hover]
    · rw [decideNext_cons, hgate, hover]
      unfold Predictive.nextOnTimer Predictive.nextOffTimer
      rw [hs]
      simp

/-- C4 witness: the dwell statement applied at a concrete instance —
heater ON with a fresh on-timer and air at set-point is held ON. -/
theorem c4_witness :
    Predictive.decideHeater pCtl ⟨true, 0, 0⟩ 18 [0] [0] = some true
    ∧ Predictive.decideNext pCtl ⟨true, 0, 0⟩ 18 [0] [0] = some ⟨true, 1, 0⟩ :=
  (c4_dwell_time pCtl ⟨true, 0, 0⟩ 18 [0] [0] (by simp)).2.1 rfl
    (by norm_num [Predictive.minOnSteps])
    (by rw [pCtl_Tset, pCtl_deadband]; norm_num)

/-! ## C2 -/

theorem rollForward_get?_succ (f : ℝ → ℝ × ℝ → ℝ) (l : List (ℝ × ℝ)) :
    ∀ (b : ℝ) (k : ℕ) (x : ℝ),
      (Predictive.rollForward f b l).get? k = some x →
      (Predictive.rollForward f b l).get? (k + 1) = (l.get? k).map (f x) := by
  induction l with
  | nil =>
    intro b k x h
    match k with
    | 0 => simp [Predictive.rollForward]
    | k + 1 => simp [Predictive.rollForward] at h
  | cons tq rest ih =>
    intro b k x h
    match k with
    | 0 =>
      simp only [Predictive.rollForward, List.get?_cons_zero, Option.some.injEq] at h
      subst h
      simp only [Predictive.rollForward, List.get?_cons_succ, List.get?_cons_zero,
        Option.map_some']
      cases rest <;> rfl
    | k + 1 =>
      simp only [Predictive.rollForward, List.get?_cons_succ] at h ⊢
      exact ih (f b tq) k x h

/-- C2 amended: inside `decide` the unforced prediction satisfies, for
every 1 <= k < H, T[k] = T_ext[k-1] + (T[k-1]-T_ext[k-1])*exp(-UA*dt/C)
+ (Q_solar[k-1] - UA*(T[k-1]-T_ext[k-1]))*dt/C: the Euler source term
uses the net heat Q_solar - UA*(T-T_ext), so the envelope loss is
applied twice (once in the exponential decay, once in the net-heat
term), not the pure Q_solar term the claim states. -/
theorem c2_unforced_recurrence (p : Predictive) (air : ℝ) (T Q : List ℝ)
    (k : ℕ) (t text q : ℝ)
    (hk : k + 1 < T.length)
    (hText : T.get? k = some text) (hQ : Q.get? k = some q)
    (ht : (Predictive.unforcedPred p air T Q).get? k = some t) :
    (Predictive.unforcedPred p air T Q).get? (k + 1)
      = some (text + (t - text) * Predictive.alphaOf p
          + (q - p.U_W_K * (t - text)) * (p.dt_hr * 3600) / p.C_J_K) := by
  have hzip : ((T.zip Q).take (T.length - 1)).get? k = some (text, q) := by
    have hk' : k < T.length - 1 := by omega
    rw [List.get?_eq_getElem?, List.getElem?_take_of_lt hk', ← List.get?_eq_getElem?]
    rw [List.get?_zip_eq_some]
    exact ⟨hText, hQ⟩
  unfold Predictive.unforcedPred at ht ⊢
  rw [rollForward_get?_succ (Predictive.predStep p) _ air k t ht, hzip]
  rfl

/-- C2 witness: the amended recurrence at the fixture controller with
T[0] = 1 and a zero forecast; the predicted T[1] carries the extra
-UA*(T[0]-T_ext[0])*dt/C term. -/
theorem c2_witness :
    (Predictive.unforcedPred pCtl 1 [0, 0] [0, 0]).get? 1
      = some (0 + (1 - 0) * Predictive.alphaOf pCtl
          + (0 - pCtl.U_W_K * (1 - 0)) * (pCtl.dt_hr * 3600) / pCtl.C_J_K) :=
  c2_unforced_recurrence pCtl 1 [0, 0] [0, 0] 0 1 0 0 (by norm_num) rfl rfl rfl

/-- C2 counterexample: at the same point the prediction differs from
the recurrence the claim states (with the bare Q_solar*dt/C source
term): the code value is alpha - 1 while the claimed value is alpha. -/
theorem c2_counterexample :
    (Predictive.unforcedPred pCtl 1 [0, 0] [0, 0]).get? 1
      ≠ some (Predictive.specUnforcedStep pCtl 1 0 0) := by
  have h : (Predictive.unforcedPred pCtl 1 [0, 0] [0, 0]).get? 1
      = some (Predictive.predStep pCtl 1 (0, 0)) := rfl
  rw [h]
  intro hc
  have heq := Option.some.inj hc
  unfold Predictive.predStep Predictive.specUnforcedStep at heq
  rw [pCtl_U, pCtl_dt, pCtl_C] at heq
  have : (0 : ℝ) + (1 - 0) * Predictive.alphaOf pCtl
      + (0 - 1 * (1 - 0)) * (1 * 3600) / 3600
      = Predictive.alphaOf pCtl - 1 := by ring
  rw [this] at heq
  have : (0 : ℝ) + (1 - 0) * Predictive.alphaOf pCtl + 0 * (1 * 3600) / 3600
      = Predictive.alphaOf pCtl := by ring
  rw [this] at heq
  linarith

/-! ## C1 and C5 -/

theorem physSubstep_typeError (cfg : GHConfig)
    (node ext wind vent Qs Qh air mass : ℝ) :
    physSubstep cfg node ext wind vent Qs Qh air mass = .error .typeError := rfl

theorem runSubsteps_four_typeError (cfg : GHConfig)
    (node ext wind vent Qs Qh air mass : ℝ) :
    runSubsteps cfg node ext wind vent Qs Qh 4 air mass = .error .typeError := rfl

/-- Any `simulate_step` hour whose row exists and whose lookahead is
nonempty dies with a TypeError in the first physics sub-step: the
engine passes three positional arguments to
`ThermalMass.update_temperature`, which accepts two. -/
theorem simLoop_typeError (cfg : GHConfig) (node : ℝ) (forecast : List Row)
    (horizon steps k : ℕ) (air mass : ℝ) (st : PState) (acc : List SimRecord)
    (hs : 1 ≤ steps) (hh : 1 ≤ horizon) (hk : k < forecast.length) :
    simLoop cfg node forecast horizon steps k air mass st acc
      = .error .typeError := by
  obtain ⟨s, rfl⟩ : ∃ s, steps = s + 1 := ⟨steps - 1, by omega⟩
  obtain ⟨h', rfl⟩ : ∃ h', horizon = h' + 1 := ⟨horizon - 1, by omega⟩
  have hdropne : forecast.drop k ≠ [] := by
    intro hnil
    have hle := List.drop_eq_nil_iff.mp hnil
    omega
  obtain ⟨r0, rest, hr⟩ := List.exists_cons_of_ne_nil hdropne
  obtain ⟨row, hrow⟩ : ∃ row, forecast.get? k = some row :=
    ⟨forecast.get ⟨k, hk⟩, List.get?_eq_get hk⟩
  unfold simLoop
  rw [hr, List.take_succ_cons]
  simp only [List.map_cons]
  simp only [decide_cons, hrow]
  simp only [runSubsteps_four_typeError]

/-- C1: every call to `simulate_step` with steps >= 1, a nonempty
lookahead (horizon >= 1) and the first simulated row present in the
forecast raises a TypeError in the first physics sub-step and never
returns a result: `ThermalMass.update_temperature` is invoked with
three positional arguments (heat input, air temperature, mass
temperature) but accepts only two besides self. -/
theorem c1_simulate_step_type_error (cfg : GHConfig)
    (air mass node : ℝ) (st : PState) (forecast : List Row)
    (start_i steps horizon : ℕ)
    (hs : 1 ≤ steps) (hh : 1 ≤ horizon) (hrow : start_i < forecast.length) :
    simulate_step cfg air mass node st forecast start_i steps horizon
      = .error .typeError :=
  simLoop_typeError cfg node forecast horizon steps start_i air mass st []
    hs hh hrow

/-- C1 witness: the Pittsburgh example configuration with a one-row
forecast, one step and the default horizon 12. -/
theorem c1_witness :
    simulate_step cfgPittsburgh 20 20 20 ⟨false, 0, 0⟩
      [⟨18, 2, 0⟩] 0 1 12 = .error .typeError :=
  c1_simulate_step_type_error cfgPittsburgh 20 20 20 ⟨false, 0, 0⟩
    [⟨18, 2, 0⟩] 0 1 12 (by norm_num) (by norm_num) (by simp)

/-- C5: with a forecast that contains the simulated rows [0, 2) but
fewer than start + steps + horizon = 5 rows, `simulate_step` does slice
a truncated lookahead (Python slicing cannot fail), yet it still does
not return one record per simulated hour: the TypeError of the
mass-update call aborts the first hour, so no record list is ever
produced.  The truncation policy the claim describes is the intent,
and the arity bug contradicts it. -/
theorem c5_truncated_forecast_crashes :
    simulate_step cfgPittsburgh 20 20 20 ⟨false, 0, 0⟩
      [⟨-5, 3, 0⟩, ⟨-5, 4, 0⟩] 0 2 3 = .error .typeError :=
  simLoop_typeError cfgPittsburgh 20 [⟨-5, 3, 0⟩, ⟨-5, 4, 0⟩] 3 2 0 20 20
    ⟨false, 0, 0⟩ [] (by norm_num) (by norm_num) (by simp)
